import Mathlib

/-!
Shallow embedding of the client-local logic of the mob-org mobile client:
the event categorizer and members-only visibility filter of
`src/screens/EventsScreen.tsx`, and the search filter and like-toggle
controller of `src/screens/HomeScreen.tsx`, together with the profile
validation paths of `src/screens/ProfileScreen.tsx` and
`src/screens/ProfileSetupScreen.tsx`.

Timestamps are modelled at minute resolution in a fixed local timezone:
an instant is a `Nat` counting minutes since an epoch, and a calendar day
is the quotient by 1440 (minutes per day).  `date-fns`'s `isAfter` and
`isBefore` are strict comparisons of instants and `isSameDay` compares
the calendar days, exactly as in the library.
-/

namespace MobOrg

/-- Embedded organization reference (`organization:organizations(name, logo_url)`). -/
structure Organization where
  name : String
  logo_url : String
  deriving Repr, DecidableEq

/-- Embedded officer reference (`officer:officers(first_name, last_name, profile_picture_url)`). -/
structure Officer where
  first_name : String
  last_name : String
  profile_picture_url : String
  deriving Repr, DecidableEq

/-- The `Post` row of `HomeScreen.tsx` (lines 8-30).  `likes` is an `Int`
because the client arithmetic (`post.likes - 1`) is unguarded JS number
arithmetic; `isLiked` is the optional viewer like state. -/
structure Post where
  id : String
  title : String
  content : String
  image_urls : List String
  created_at : String
  event_date : Option Nat
  location : Option String
  is_members_only : Bool
  likes : Int
  organization_ids : List String
  posted_by : String
  organization : Organization
  officer : Officer
  isLiked : Option Bool
  deriving Repr, DecidableEq

/-- The event row of `EventsScreen.tsx` (lines 8-28): a post row fetched with
`.not('event_date', 'is', null)`, so its `event_date` is non-null, modelled
as a total `Nat` instant.  The fetch selects `*`, and the visibility filter
at line 74 reads the row's owning-organization column `organization_id`,
so that column is part of the row model (the TS type annotation at line 17
lists `organization_ids`; the filter code reads `organization_id`). -/
structure EventRow where
  id : String
  title : String
  content : String
  image_urls : List String
  created_at : String
  event_date : Nat
  location : Option String
  is_members_only : Bool
  organization_id : String
  organization_ids : List String
  posted_by : String
  organization : Organization
  officer : Officer
  deriving Repr, DecidableEq

/-- The three-valued category selector of `EventsScreen.tsx` (line 30). -/
inductive EventCategory where
  | upcoming
  | ongoing
  | past
  deriving Repr, DecidableEq

/-- Minutes in a calendar day; the calendar day of instant `t` is `t / 1440`. -/
def minutesPerDay : Nat := 1440

/-- Model of date-fns `isAfter(a, b)`: `a` strictly after `b`. -/
def isAfter (a b : Nat) : Bool := b < a

/-- Model of date-fns `isBefore(a, b)`: `a` strictly before `b`. -/
def isBefore (a b : Nat) : Bool := a < b

/-- Model of date-fns `isSameDay(a, b)`: `a` and `b` fall on the same calendar day. -/
def isSameDay (a b : Nat) : Bool := a / minutesPerDay == b / minutesPerDay

/-- The per-event predicate of the `switch` in `filterEventsByCategory`
(`EventsScreen.tsx` lines 102-111): `upcoming` keeps events strictly after
`now`, `ongoing` keeps events on the same calendar day as `now`, `past`
keeps events strictly before `now`. -/
def categoryPred (selectedCategory : EventCategory) (eventDate now : Nat) : Bool :=
  match selectedCategory with
  | .upcoming => isAfter eventDate now
  | .ongoing => isSameDay eventDate now
  | .past => isBefore eventDate now

/-- The function `filterEventsByCategory` (`EventsScreen.tsx` lines 96-115): filter the
event list by the category predicate at the reference instant `now`. -/
def filterEventsByCategory (eventsList : List EventRow) (selectedCategory : EventCategory)
    (now : Nat) : List EventRow :=
  eventsList.filter fun event => categoryPred selectedCategory event.event_date now

/-- The members-only visibility filter of `fetchEvents`
(`EventsScreen.tsx` lines 72-75): keep an event if it is not members-only,
or if the viewer's membership list contains the event's owning organization. -/
def visibilityFilter (events : List EventRow) (memberOrgIds : List String) : List EventRow :=
  events.filter fun event =>
    if !event.is_members_only then true
    else memberOrgIds.contains event.organization_id

/-- A concrete event row used for concrete evaluations; its timestamp is
the parameter `t`. -/
def sampleEvent (t : Nat) : EventRow :=
  { id := "e1", title := "General Assembly", content := "All members welcome"
    image_urls := [], created_at := "2024-03-01T08:00:00", event_date := t
    location := some "Auditorium", is_members_only := false
    organization_id := "org1", organization_ids := ["org1"], posted_by := "off1"
    organization := { name := "Math Org", logo_url := "logo.png" }
    officer := { first_name := "Ana", last_name := "Cruz", profile_picture_url := "p.png" } }

/-! ### Text search filter (`HomeScreen.tsx` lines 139-149 and 179-186) -/

/-- JS `String.prototype.toLowerCase`, at ASCII fidelity: lower-case every
character. -/
def jsToLower (s : String) : String := String.mk (s.data.map Char.toLower)

/-- Whether `pat` is a prefix of `l` (character lists). -/
def prefOf : List Char → List Char → Bool
  | [], _ => true
  | _ :: _, [] => false
  | a :: as, b :: bs => a == b && prefOf as bs

/-- Whether `pat` occurs as a contiguous substring of `l` (character lists). -/
def substrOf (pat : List Char) : List Char → Bool
  | [] => prefOf pat []
  | b :: bs => prefOf pat (b :: bs) || substrOf pat bs

/-- JS `String.prototype.includes`: `s.includes(pat)` is true when `pat`
occurs as a contiguous substring of `s`. -/
def jsIncludes (s pat : String) : Bool := substrOf pat.data s.data

/-- JS `query.trim() === ''`: the query is empty after stripping leading and
trailing whitespace, i.e. it has no non-whitespace character. -/
def trimEmpty (s : String) : Bool := s.data.all fun c => c.isWhitespace

/-- The per-post search predicate of `HomeScreen.tsx` (lines 143-146):
title or content contains the query, case-insensitively. -/
def searchMatch (searchQuery : String) (post : Post) : Bool :=
  jsIncludes (jsToLower post.title) (jsToLower searchQuery) ||
  jsIncludes (jsToLower post.content) (jsToLower searchQuery)

/-- The search effect of `HomeScreen.tsx` (lines 139-149): a query that is
empty after trimming leaves the list unfiltered; otherwise the list is
filtered by the case-insensitive substring predicate. -/
def searchFilter (posts : List Post) (searchQuery : String) : List Post :=
  if trimEmpty searchQuery then posts
  else posts.filter (searchMatch searchQuery)

/-! ### Like-toggle controller (`HomeScreen.tsx` lines 157-231)

`handleLike` is straight-line async code: an optimistic local update,
then up to three remote steps (edge delete/insert, count re-read, count
write-back), with a single catch-all that logs and refetches.  It is
embedded as a function from the inputs and a backend oracle (the outcomes
of the remote calls) to the emitted step trace and the final local post
list. -/

/-- One remote call of the like-toggle flow or of its recovery path. -/
inductive RemoteOp where
  | deleteEdge (postId userId : String)
  | insertEdge (postId userId : String)
  | readCount (postId : String)
  | writeCount (postId : String) (value : Int)
  | refetchPosts
  deriving Repr, DecidableEq

/-- One observable step of `handleLike`: a synchronous local state write,
the issuing of a remote call, or the `console.error` failure report. -/
inductive Step where
  | setPosts (posts : List Post)
  | remote (op : RemoteOp)
  | reportError
  deriving Repr, DecidableEq

/-- Outcomes of the remote calls that `handleLike` may issue, plus the
authoritative post list a recovery refetch would deliver. -/
structure Backend where
  edgeOk : Bool
  readRes : Option Int
  writeOk : Bool
  refetched : List Post
  deriving Repr

/-- The optimistic update of `handleLike` (`HomeScreen.tsx` lines 167-176):
map over the posts, and on the post whose id is `postId` decrement the like
count when `currentlyLiked`, increment it otherwise, and set the like state
to the negation of `currentlyLiked`. -/
def optimisticUpdate (posts : List Post) (postId : String) (currentlyLiked : Bool) :
    List Post :=
  posts.map fun post =>
    if post.id == postId then
      { post with
        likes := if currentlyLiked then post.likes - 1 else post.likes + 1
        isLiked := some (!currentlyLiked) }
    else post

/-- JS `a || b` on numbers: `b` when `a` is falsy (zero), else `a`. -/
def jsOrNum (a b : Int) : Int := if a = 0 then b else a

/-- The written-back like count (`HomeScreen.tsx` line 217):
`currentlyLiked ? (post?.likes || 1) - 1 : (post?.likes || 0) + 1`
applied to the freshly re-read count `c`. -/
def newLikeCount (currentlyLiked : Bool) (c : Int) : Int :=
  if currentlyLiked then jsOrNum c 1 - 1 else jsOrNum c 0 + 1

/-- The recovery tail of the catch block (`HomeScreen.tsx` lines 226-230):
log the error, refetch the post list, and adopt the authoritative state. -/
def recoverySteps (b : Backend) : List Step :=
  [Step.reportError, Step.remote RemoteOp.refetchPosts, Step.setPosts b.refetched]

/-- The function `handleLike` (`HomeScreen.tsx` lines 157-231) as a trace semantics:
given the session user, the current post list, the target post id and the
viewer's current like state, and a backend oracle, return the ordered step
trace and the final local post list.  A null user returns early with no
steps; otherwise the optimistic update is applied synchronously, then the
edge mutation, count re-read and count write-back are issued in order, and
the first failing step diverts to the catch block's report-and-refetch. -/
def handleLike (user : Option String) (posts : List Post) (postId : String)
    (currentlyLiked : Bool) (b : Backend) : List Step × List Post :=
  match user with
  | none => ([], posts)
  | some uid =>
    let updatedPosts := optimisticUpdate posts postId currentlyLiked
    let edgeOp := if currentlyLiked then RemoteOp.deleteEdge postId uid
                  else RemoteOp.insertEdge postId uid
    let pre := [Step.setPosts updatedPosts, Step.remote edgeOp]
    if !b.edgeOk then
      (pre ++ recoverySteps b, b.refetched)
    else
      match b.readRes with
      | none =>
        (pre ++ [Step.remote (RemoteOp.readCount postId)] ++ recoverySteps b, b.refetched)
      | some c =>
        let write := Step.remote (RemoteOp.writeCount postId (newLikeCount currentlyLiked c))
        if b.writeOk then
          (pre ++ [Step.remote (RemoteOp.readCount postId), write], updatedPosts)
        else
          (pre ++ [Step.remote (RemoteOp.readCount postId), write] ++ recoverySteps b,
            b.refetched)

/-- A concrete post used for concrete evaluations, with like count `n` and
like state `l`. -/
def samplePost (n : Int) (l : Option Bool) : Post :=
  { id := "p1", title := "Sports Fest", content := "Join the games"
    image_urls := ["a.png"], created_at := "2024-02-01T09:00:00", event_date := none
    location := none, is_members_only := false, likes := n
    organization_ids := ["org1"], posted_by := "off1"
    organization := { name := "Math Org", logo_url := "logo.png" }
    officer := { first_name := "Ana", last_name := "Cruz", profile_picture_url := "p.png" }
    isLiked := l }

/-! ### Profile validation (`ProfileScreen.tsx` lines 190-210,
`ProfileSetupScreen.tsx` lines 108-135) -/

/-- The stored member row relevant to profile editing. -/
structure Member where
  id : String
  first_name : String
  last_name : String
  bio : String
  deriving Repr, DecidableEq

/-- The edit/setup form state: first name, last name, bio. -/
structure ProfileForm where
  firstName : String
  lastName : String
  bio : String
  deriving Repr, DecidableEq

/-- One remote call of the profile flows. -/
inductive ProfileOp where
  | updateMembers (id firstName lastName bio : String)
  | insertMembers (id firstName lastName bio : String)
  | getUser
  | refetchProfile
  deriving Repr, DecidableEq

/-- JS falsiness of a string: `!s` is true exactly when `s` is empty. -/
def strFalsy (s : String) : Bool := s == ""

/-- The function `handleEdit` (`ProfileScreen.tsx` lines 190-210): with no loaded member
it returns early; otherwise it immediately issues the members-table update
with the form fields as they are (no validation), then refetches the
profile.  Returns the list of remote calls issued. -/
def handleEdit (member : Option Member) (editForm : ProfileForm) : List ProfileOp :=
  match member with
  | none => []
  | some m =>
    [ProfileOp.updateMembers m.id editForm.firstName editForm.lastName editForm.bio,
     ProfileOp.refetchProfile]

/-- The function `handleSubmit` (`ProfileSetupScreen.tsx` lines 108-135, photo-upload
branch omitted as no claim concerns it): an empty first or last name sets
the inline error and returns before any remote call; otherwise the user is
fetched and the member row inserted.  Returns the remote calls issued and
the inline error, if any. -/
def handleSubmit (formData : ProfileForm) (user : Option String) :
    List ProfileOp × Option String :=
  if strFalsy formData.firstName || strFalsy formData.lastName then
    ([], some "First name and last name are required")
  else
    match user with
    | none => ([ProfileOp.getUser], some "No user found")
    | some uid =>
      ([ProfileOp.getUser,
        ProfileOp.insertMembers uid formData.firstName formData.lastName formData.bio], none)

/-- Projection of a trace step to the remote call it issues, if any. -/
def remotePart : Step → Option RemoteOp
  | Step.remote op => some op
  | _ => none

/-- A concrete backend oracle on which every remote call succeeds. -/
def okBackend : Backend :=
  { edgeOk := true, readRes := some 5, writeOk := true, refetched := [] }

/-- A concrete backend oracle whose edge mutation fails; its authoritative
post list carries like count 7. -/
def failingBackend : Backend :=
  { edgeOk := false, readRes := none, writeOk := true,
    refetched := [samplePost 7 (some true)] }

/-! ## Theorems for the claims -/

/-- C1, counterexample: the three category predicates of
`filterEventsByCategory` are not mutually exclusive, so it is false that
exactly one of them holds for every event with a timestamp: at reference
instant 720 (day 0, 12:00) the event at instant 730 (day 0, 12:10) is
selected both by `upcoming` and by `ongoing`. -/
theorem C1_counterexample :
    filterEventsByCategory [sampleEvent 730] EventCategory.upcoming 720 = [sampleEvent 730] ∧
    filterEventsByCategory [sampleEvent 730] EventCategory.ongoing 720 = [sampleEvent 730] := by
  constructor <;> rfl

/-- C1, amended: for every event with a non-null timestamp and every
reference instant, at least one of the three category predicates of
`filterEventsByCategory` holds (joint coverage), but they are mutually
exclusive only away from the reference day: exactly one of the three holds
iff the event is not on the same calendar day as the reference instant or
coincides with it exactly. -/
theorem C1_partition_amended (e : EventRow) (now : Nat) :
    (categoryPred EventCategory.upcoming e.event_date now = true ∨
     categoryPred EventCategory.ongoing e.event_date now = true ∨
     categoryPred EventCategory.past e.event_date now = true) ∧
    (((if categoryPred EventCategory.upcoming e.event_date now then 1 else 0) +
      (if categoryPred EventCategory.ongoing e.event_date now then 1 else 0) +
      (if categoryPred EventCategory.past e.event_date now then 1 else 0) = (1 : Nat) ↔
      (isSameDay e.event_date now = false ∨ e.event_date = now))) := by
  simp only [categoryPred, isAfter, isBefore, isSameDay, minutesPerDay]
  rcases Nat.lt_trichotomy e.event_date now with h | h | h
  · have h1 : ¬ now < e.event_date := by omega
    have h2 : e.event_date ≠ now := by omega
    by_cases hs : e.event_date / 1440 = now / 1440 <;>
      simp [h, h1, h2, hs]
  · have h1 : ¬ now < e.event_date := by omega
    have h2 : ¬ e.event_date < now := by omega
    simp [h, h1, h2]
  · have h1 : ¬ e.event_date < now := by omega
    have h2 : e.event_date ≠ now := by omega
    by_cases hs : e.event_date / 1440 = now / 1440 <;>
      simp [h, h1, h2, hs]

/-- C2, counterexample: the `past` branch of `filterEventsByCategory` is a
bare strictly-before test with no same-calendar-day exclusion: with
reference instant 2160 (day 1, 12:00), the event at instant 1470 (day 1,
00:30) lies on the same calendar day and yet is selected by `past`,
contradicting the claim that `past` selects exactly the events strictly
before the reference instant and not on the same calendar day. -/
theorem C2_counterexample :
    filterEventsByCategory [sampleEvent 1470] EventCategory.past 2160 = [sampleEvent 1470] ∧
    isSameDay 1470 2160 = true := by
  constructor <;> rfl

/-- C2, amended: `filterEventsByCategory` selects for `upcoming` exactly
the events strictly after the reference instant, for `ongoing` exactly the
events on the same calendar day as the reference instant, and for `past`
exactly the events strictly before the reference instant (with no
same-calendar-day exclusion), each in input order. -/
theorem C2_filter_amended (events : List EventRow) (now : Nat) (e : EventRow) :
    (e ∈ filterEventsByCategory events EventCategory.upcoming now ↔
      e ∈ events ∧ now < e.event_date) ∧
    (e ∈ filterEventsByCategory events EventCategory.ongoing now ↔
      e ∈ events ∧ e.event_date / minutesPerDay = now / minutesPerDay) ∧
    (e ∈ filterEventsByCategory events EventCategory.past now ↔
      e ∈ events ∧ e.event_date < now) ∧
    ∀ c : EventCategory, (filterEventsByCategory events c now).Sublist events := by
  refine ⟨?_, ?_, ?_, fun c => List.filter_sublist _⟩ <;>
    simp [filterEventsByCategory, categoryPred, isAfter, isBefore, isSameDay,
      List.mem_filter]

/-- C8: the visibility filter of `fetchEvents` retains every event whose
members-only flag is false, and retains a members-only event exactly when
the viewer's organization membership list contains the event's owning
organization identifier. -/
theorem C8_visibility (events : List EventRow) (memberOrgIds : List String) (e : EventRow) :
    e ∈ visibilityFilter events memberOrgIds ↔
      e ∈ events ∧ (e.is_members_only = false ∨ e.organization_id ∈ memberOrgIds) := by
  rw [visibilityFilter, List.mem_filter]
  cases h : e.is_members_only <;> simp [h]

/-- C3: with an authenticated viewer, `handleLike` emits the optimistic
local write as the very first step of its trace — before any remote call —
and on the target post that write decrements the like count when toggling
off, increments it when toggling on, and sets the like state to the
negation of the current like state. -/
theorem C3_optimistic_sync (uid : String) (posts : List Post) (post : Post) (postId : String)
    (currentlyLiked : Bool) (b : Backend)
    (hmem : post ∈ posts) (hid : post.id = postId) :
    (∃ rest, (handleLike (some uid) posts postId currentlyLiked b).1 =
        Step.setPosts (optimisticUpdate posts postId currentlyLiked) :: rest) ∧
    { post with
        likes := if currentlyLiked then post.likes - 1 else post.likes + 1
        isLiked := some (!currentlyLiked) } ∈ optimisticUpdate posts postId currentlyLiked := by
  constructor
  · cases he : b.edgeOk <;> rcases hb : b.readRes with _ | c <;> cases hw : b.writeOk <;>
      simp [handleLike, he, hb, hw, recoverySteps]
  · unfold optimisticUpdate
    exact List.mem_map.mpr ⟨post, hmem, by simp [hid]⟩

/-- Witness for C3 at the spec's concrete instance: a post with 5 likes and
like state false, toggled on, synchronously becomes 6 likes with like state
true. -/
theorem C3_witness :
    (samplePost 5 (some false) ∈ [samplePost 5 (some false)] ∧
      (samplePost 5 (some false)).id = "p1") ∧
    ((∃ rest, (handleLike (some "u1") [samplePost 5 (some false)] "p1" false okBackend).1 =
        Step.setPosts (optimisticUpdate [samplePost 5 (some false)] "p1" false) :: rest) ∧
      { samplePost 5 (some false) with
          likes := if false then (samplePost 5 (some false)).likes - 1
                   else (samplePost 5 (some false)).likes + 1
          isLiked := some (!false) } ∈
        optimisticUpdate [samplePost 5 (some false)] "p1" false) :=
  ⟨⟨by simp, rfl⟩,
    C3_optimistic_sync "u1" [samplePost 5 (some false)] (samplePost 5 (some false)) "p1"
      false okBackend (by simp) rfl⟩

/-- C4, counterexample: toggling off with a freshly re-read count of 0
writes back 0, not the re-read count minus one: the JS falsy fallback
`(post?.likes || 1) - 1` substitutes 1 for a zero count.  The trace also
shows the step order edge-delete, re-read, write-back. -/
theorem C4_counterexample :
    (handleLike (some "u1") [samplePost 1 (some true)] "p1" true
        { edgeOk := true, readRes := some 0, writeOk := true, refetched := [] }).1 =
      [Step.setPosts [{ samplePost 1 (some true) with likes := 0, isLiked := some false }],
       Step.remote (RemoteOp.deleteEdge "p1" "u1"),
       Step.remote (RemoteOp.readCount "p1"),
       Step.remote (RemoteOp.writeCount "p1" 0)] ∧
    (0 : Int) ≠ (0 : Int) - 1 := by
  exact ⟨rfl, by decide⟩

/-- C4, amended: whenever the edge mutation succeeds and the count re-read
returns `c`, `handleLike` issues its remote steps in order — edge
delete/insert, then count re-read, then count write-back — and the written
count is computed from the freshly re-read value alone (the local post
list does not appear in it): `c + 1` when toggling on, and `c - 1` when
toggling off except that a re-read count of zero writes back `0` (the
`|| 1` falsy fallback). -/
theorem C4_writeback_amended (uid : String) (posts : List Post) (postId : String)
    (currentlyLiked : Bool) (c : Int) (wOk : Bool) (ref : List Post) :
    ∃ rest,
      (handleLike (some uid) posts postId currentlyLiked
          { edgeOk := true, readRes := some c, writeOk := wOk, refetched := ref }).1 =
        Step.setPosts (optimisticUpdate posts postId currentlyLiked) ::
        Step.remote (if currentlyLiked then RemoteOp.deleteEdge postId uid
                     else RemoteOp.insertEdge postId uid) ::
        Step.remote (RemoteOp.readCount postId) ::
        Step.remote (RemoteOp.writeCount postId
          (if currentlyLiked then (if c = 0 then 0 else c - 1) else c + 1)) :: rest := by
  have hv : newLikeCount currentlyLiked c =
      (if currentlyLiked then (if c = 0 then 0 else c - 1) else c + 1) := by
    cases currentlyLiked <;> simp only [newLikeCount, jsOrNum, if_true, if_false,
      Bool.false_eq_true] <;> split <;> omega
  cases wOk <;> simp [handleLike, hv, recoverySteps]

/-- C5: if any remote step of the like toggle fails (edge delete/insert,
count re-read, or count write-back), `handleLike` reports the failure,
triggers a single full refetch as the tail of its trace, adopts the
backend's authoritative post list as the final local state, and issues no
remote call twice (no partial retry). -/
theorem C5_failure_refetch (uid : String) (posts : List Post) (postId : String)
    (currentlyLiked : Bool) (b : Backend)
    (hfail : b.edgeOk = false ∨ b.readRes = none ∨ b.writeOk = false) :
    (handleLike (some uid) posts postId currentlyLiked b).2 = b.refetched ∧
    (∃ pre, (handleLike (some uid) posts postId currentlyLiked b).1 =
        pre ++ [Step.reportError, Step.remote RemoteOp.refetchPosts,
                Step.setPosts b.refetched]) ∧
    ((handleLike (some uid) posts postId currentlyLiked b).1.filterMap remotePart).Nodup := by
  cases he : b.edgeOk with
  | false =>
    refine ⟨by simp [handleLike, he, recoverySteps],
      ⟨[Step.setPosts (optimisticUpdate posts postId currentlyLiked),
        Step.remote (if currentlyLiked then RemoteOp.deleteEdge postId uid
                     else RemoteOp.insertEdge postId uid)],
       by simp [handleLike, he, recoverySteps]⟩,
      by cases currentlyLiked <;> simp [handleLike, he, recoverySteps, remotePart]⟩
  | true =>
    rcases hb : b.readRes with _ | c
    · refine ⟨by simp [handleLike, he, hb, recoverySteps],
        ⟨[Step.setPosts (optimisticUpdate posts postId currentlyLiked),
          Step.remote (if currentlyLiked then RemoteOp.deleteEdge postId uid
                       else RemoteOp.insertEdge postId uid),
          Step.remote (RemoteOp.readCount postId)],
         by simp [handleLike, he, hb, recoverySteps]⟩,
        by cases currentlyLiked <;> simp [handleLike, he, hb, recoverySteps, remotePart]⟩
    · cases hw : b.writeOk with
      | true => simp_all
      | false =>
        refine ⟨by simp [handleLike, he, hb, hw, recoverySteps],
          ⟨[Step.setPosts (optimisticUpdate posts postId currentlyLiked),
            Step.remote (if currentlyLiked then RemoteOp.deleteEdge postId uid
                         else RemoteOp.insertEdge postId uid),
            Step.remote (RemoteOp.readCount postId),
            Step.remote (RemoteOp.writeCount postId (newLikeCount currentlyLiked c))],
           by simp [handleLike, he, hb, hw, recoverySteps]⟩,
          by cases currentlyLiked <;> simp [handleLike, he, hb, hw, recoverySteps, remotePart]⟩

/-- Witness for C5: on a backend whose edge mutation fails, the like toggle
ends in report-refetch-adopt and the final state is the authoritative list. -/
theorem C5_witness :
    (failingBackend.edgeOk = false ∨ failingBackend.readRes = none ∨
      failingBackend.writeOk = false) ∧
    ((handleLike (some "u1") [samplePost 5 (some false)] "p1" false failingBackend).2 =
        failingBackend.refetched ∧
      (∃ pre, (handleLike (some "u1") [samplePost 5 (some false)] "p1" false
            failingBackend).1 =
          pre ++ [Step.reportError, Step.remote RemoteOp.refetchPosts,
                  Step.setPosts failingBackend.refetched]) ∧
      ((handleLike (some "u1") [samplePost 5 (some false)] "p1" false
          failingBackend).1.filterMap remotePart).Nodup) :=
  ⟨Or.inl rfl,
    C5_failure_refetch "u1" [samplePost 5 (some false)] "p1" false failingBackend (Or.inl rfl)⟩

/-- C6, counterexample: the search effect tests `query.trim() === ''`, so a
non-empty but all-whitespace query (here a single tab) returns the full
input list even though no item contains the query as a substring,
contradicting the claim that every non-empty query returns exactly the
substring matches. -/
theorem C6_counterexample :
    ("\t" : String) ≠ "" ∧
    searchFilter [samplePost 5 (some false)] "\t" = [samplePost 5 (some false)] ∧
    searchMatch "\t" (samplePost 5 (some false)) = false := by
  exact ⟨by decide, rfl, by decide⟩

/-- C6, amended: a query that is empty after trimming whitespace returns
the full input list unchanged and in the same order; a query containing a
non-whitespace character returns exactly the items whose title or body
contains the (untrimmed) query as a case-insensitive substring; the result
is always in input order (a sublist of the input); and filtering is
idempotent. -/
theorem C6_search_amended (posts : List Post) (q : String) :
    (trimEmpty q = true → searchFilter posts q = posts) ∧
    (trimEmpty q = false → ∀ p : Post, p ∈ searchFilter posts q ↔
      p ∈ posts ∧ (jsIncludes (jsToLower p.title) (jsToLower q) = true ∨
                   jsIncludes (jsToLower p.content) (jsToLower q) = true)) ∧
    (searchFilter posts q).Sublist posts ∧
    searchFilter (searchFilter posts q) q = searchFilter posts q := by
  refine ⟨fun h => by simp [searchFilter, h], fun h p => ?_, ?_, ?_⟩
  · simp [searchFilter, h, List.mem_filter, searchMatch]
  · by_cases h : trimEmpty q
    · simp [searchFilter, h]
    · simp only [searchFilter, if_neg h]
      exact List.filter_sublist posts
  · by_cases h : trimEmpty q
    · simp [searchFilter, h]
    · simp only [searchFilter, h, if_neg, Bool.false_eq_true, if_false]
      exact List.filter_eq_self.mpr fun a ha => (List.mem_filter.mp ha).2

/-- C7, counterexample: the profile edit handler of `ProfileScreen`
performs no name validation: with an empty first name it still issues the
members-table update (a network call), contradicting the claim that such a
submission is rejected before any network call. -/
theorem C7_counterexample :
    handleEdit (some { id := "m1", first_name := "Old", last_name := "Name", bio := "b" })
        { firstName := "", lastName := "Doe", bio := "hello" } =
      [ProfileOp.updateMembers "m1" "" "Doe" "hello", ProfileOp.refetchProfile] ∧
    ProfileOp.updateMembers "m1" "" "Doe" "hello" ∈
      handleEdit (some { id := "m1", first_name := "Old", last_name := "Name", bio := "b" })
        { firstName := "", lastName := "Doe", bio := "hello" } := by
  exact ⟨rfl, by decide⟩

/-- C7, amended: a profile setup submission (`handleSubmit` of
`ProfileSetupScreen`) with an empty first or last name is rejected before
any network call — no remote operation is issued, so no stored record
changes, and the inline error is set; the profile edit handler
(`handleEdit` of `ProfileScreen`) performs no such validation and issues
the update regardless. -/
theorem C7_setup_validation (formData : ProfileForm) (user : Option String)
    (h : formData.firstName = "" ∨ formData.lastName = "") :
    handleSubmit formData user = ([], some "First name and last name are required") := by
  rcases h with h | h <;> simp [handleSubmit, strFalsy, h]

/-- Witness for C7: the empty-first-name setup form is rejected with the
inline error and no remote operation. -/
theorem C7_witness :
    (({ firstName := "", lastName := "Doe", bio := "b" } : ProfileForm).firstName = "" ∨
      ({ firstName := "", lastName := "Doe", bio := "b" } : ProfileForm).lastName = "") ∧
    handleSubmit { firstName := "", lastName := "Doe", bio := "b" } (some "u1") =
      ([], some "First name and last name are required") :=
  ⟨Or.inl rfl,
    C7_setup_validation { firstName := "", lastName := "Doe", bio := "b" } (some "u1")
      (Or.inl rfl)⟩

/-- C9, counterexample: the optimistic update is unguarded JS arithmetic:
toggling off on a target post whose like count is 0 drives the local like
count to -1, so non-negativity is not preserved by every local operation. -/
theorem C9_counterexample :
    (0 : Int) ≤ (samplePost 0 (some true)).likes ∧
    optimisticUpdate [samplePost 0 (some true)] "p1" true =
      [{ samplePost 0 (some true) with likes := -1, isLiked := some false }] ∧
    ¬ ((0 : Int) ≤ ({ samplePost 0 (some true) with
        likes := -1, isLiked := some false } : Post).likes) := by
  exact ⟨by decide, by decide, by decide⟩

/-- C9, amended: the written-back count is non-negative whenever the
re-read count is (the `|| 1` fallback keeps even a zero-count unlike at 0),
and the optimistic update preserves non-negativity when toggling on, and
when toggling off provided the target post's count is at least 1; a target
count of 0 toggled off goes negative. -/
theorem C9_nonneg_amended (posts : List Post) (postId : String) (currentlyLiked : Bool)
    (c : Int)
    (hpos : ∀ p ∈ posts, 0 ≤ p.likes)
    (htarget : currentlyLiked = true → ∀ p ∈ posts, p.id = postId → 1 ≤ p.likes)
    (hc : 0 ≤ c) :
    (∀ p ∈ optimisticUpdate posts postId currentlyLiked, 0 ≤ p.likes) ∧
    0 ≤ newLikeCount currentlyLiked c := by
  constructor
  · intro p hp
    rw [optimisticUpdate] at hp
    rcases List.mem_map.mp hp with ⟨q, hq, rfl⟩
    have hq0 := hpos q hq
    by_cases hid : q.id = postId
    · have hbeq : (q.id == postId) = true := by simp [hid]
      cases hcl : currentlyLiked
      · simp only [hbeq, if_true, hcl, Bool.false_eq_true, if_false]
        omega
      · have h1 := htarget hcl q hq hid
        simp only [hbeq, if_true, hcl]
        omega
    · have hbeq : (q.id == postId) = false := by simp [hid]
      simp only [hbeq, Bool.false_eq_true, if_false]
      exact hq0
  · cases currentlyLiked <;>
      simp only [newLikeCount, jsOrNum, if_true, if_false, Bool.false_eq_true] <;>
      split <;> omega

/-- Witness for C9: a consistent list (count 5, liked) toggled off and a
re-read count of 3 keep both the local and the written-back counts
non-negative. -/
theorem C9_witness :
    ((∀ p ∈ [samplePost 5 (some true)], (0 : Int) ≤ p.likes) ∧
      ((true : Bool) = true → ∀ p ∈ [samplePost 5 (some true)], p.id = "p1" →
        (1 : Int) ≤ p.likes) ∧
      (0 : Int) ≤ (3 : Int)) ∧
    ((∀ p ∈ optimisticUpdate [samplePost 5 (some true)] "p1" true, (0 : Int) ≤ p.likes) ∧
      (0 : Int) ≤ newLikeCount true 3) :=
  ⟨⟨by decide, by decide, by decide⟩,
    C9_nonneg_amended [samplePost 5 (some true)] "p1" true 3 (by decide) (by decide)
      (by decide)⟩

/-- C10: the optimistic update is a pointwise map over the post list that
leaves every post whose id differs from the target unchanged, and on every
post preserves every field other than `likes` and `isLiked` (id, title,
content, image urls, creation timestamp, event timestamp, location,
members-only flag, organization ids, poster, organization and officer
data). -/
theorem C10_frame (posts : List Post) (postId : String) (currentlyLiked : Bool) :
    ∃ f : Post → Post,
      optimisticUpdate posts postId currentlyLiked = posts.map f ∧
      (∀ p : Post, p.id ≠ postId → f p = p) ∧
      (∀ p : Post, (f p).id = p.id ∧ (f p).title = p.title ∧ (f p).content = p.content ∧
        (f p).image_urls = p.image_urls ∧ (f p).created_at = p.created_at ∧
        (f p).event_date = p.event_date ∧ (f p).location = p.location ∧
        (f p).is_members_only = p.is_members_only ∧
        (f p).organization_ids = p.organization_ids ∧ (f p).posted_by = p.posted_by ∧
        (f p).organization = p.organization ∧ (f p).officer = p.officer) := by
  refine ⟨fun post =>
    if post.id == postId then
      { post with
        likes := if currentlyLiked then post.likes - 1 else post.likes + 1
        isLiked := some (!currentlyLiked) }
    else post, rfl, fun p hp => by simp [hp], fun p => ?_⟩
  by_cases h : p.id = postId <;> simp [h]

end MobOrg
